import Mathlib

/-!
# Verification of the session and input-event subsystem (src/backend/Session.cpp)

This file shallowly embeds the session/input subsystem of the aquamarine
backend and proves/refutes the specification claims about it.

Modelling conventions:
* libinput/libseat/libudev objects are represented by the data the code
  actually reads from them (event type, deltas, properties, ...).
* Emitted events (`events.*.emit(...)` and `backend->events.*.emit(...)`)
  are modelled as values of explicit output inductives, produced in program
  order as a list.  Calls to `backend->log` are modelled only where a claim
  refers to them (the error log in `handleLibinputEvent`); debug logging is
  not an emitted event and is otherwise omitted.
* `double` scroll/motion deltas are carried as exact integers: the code
  never performs arithmetic on them, it only copies them into event
  payloads, so the embedding is value-faithful on integral inputs.
* `uint32_t` millisecond timestamps keep the C truncation: `% 2^32`.
-/

namespace Aquamarine

/-- libinput event types handled by `CSession::handleLibinputEvent`;
`other` stands for every event kind the switch sends to `default:`. -/
inductive LibinputEventType where
  | deviceAdded
  | deviceRemoved
  | keyboardKey
  | pointerMotion
  | pointerMotionAbsolute
  | pointerButton
  | pointerScrollWheel
  | pointerScrollFinger
  | pointerScrollContinuous
  | other
deriving DecidableEq, Repr

/-- Pointer axis-event sources (`IPointer::AQ_POINTER_AXIS_SOURCE_*`).
`wheel` is the first enumerator, i.e. the value a value-initialized
`SAxisEvent.source` field holds. -/
inductive AxisSource where
  | wheel
  | finger
  | continuous
  | tilt
deriving DecidableEq, Repr

/-- Scroll axes (`IPointer::AQ_POINTER_AXIS_VERTICAL/HORIZONTAL`). -/
inductive ScrollAxis where
  | vertical
  | horizontal
deriving DecidableEq, Repr

/-- The data `handleLibinputEvent` reads from a `libinput_event` and from the
device it came from.  `device` is the identity of the underlying
`libinput_device*`; the user-data association is modelled by membership of
that identity in the session's `libinputDevices` list (the wrapper attaches
itself as user data in `CLibinputDevice::init`). -/
structure LibinputEventInfo where
  type : LibinputEventType
  device : Nat
  /-- Models `libinput_device_get_name` at wrap time. -/
  deviceName : String
  /-- Whether `LIBINPUT_DEVICE_CAP_KEYBOARD` is advertised. -/
  capKeyboard : Bool
  /-- Whether `LIBINPUT_DEVICE_CAP_POINTER` is advertised. -/
  capPointer : Bool
  /-- Models `libinput_event_*_get_time_usec`. -/
  timeUsec : Nat
  /-- Models `libinput_event_keyboard_get_key`. -/
  key : Nat
  /-- key state == `LIBINPUT_KEY_STATE_PRESSED`. -/
  keyPressed : Bool
  /-- Models `libinput_event_pointer_get_dx` / `_dy`. -/
  dx : Int
  dy : Int
  /-- unaccelerated deltas. -/
  dxUnaccel : Int
  dyUnaccel : Int
  /-- absolute coordinates transformed to [0,1]. -/
  absX : Int
  absY : Int
  /-- Models `libinput_event_pointer_get_button`. -/
  button : Nat
  /-- button state == `LIBINPUT_BUTTON_STATE_PRESSED`. -/
  buttonPressed : Bool
  /-- Models `libinput_event_pointer_get_seat_button_count`. -/
  seatButtonCount : Nat
  /-- Models `libinput_event_pointer_has_axis` for each axis. -/
  hasAxisVertical : Bool
  hasAxisHorizontal : Bool
  /-- Models `libinput_event_pointer_get_axis_value` per axis. -/
  axisValueVertical : Int
  axisValueHorizontal : Int
  /-- Models `libinput_event_pointer_get_scroll_value_v120` per axis. -/
  v120Vertical : Int
  v120Horizontal : Int
  /-- Models `libinput_device_config_scroll_get_natural_scroll_enabled`. -/
  naturalScrollEnabled : Bool
deriving DecidableEq, Repr

/-- Events and logs produced by `handleLibinputEvent` (and by
`CLibinputDevice::init` for the device-added path), in program order.
`logError` models `backend->log(AQ_LOG_ERROR, ...)`; every other
constructor models an `emit`. -/
inductive LiOutput where
  | newKeyboard (device : Nat)
  | newPointer (device : Nat)
  | key (timeMs : Nat) (keyCode : Nat) (pressed : Bool)
  | move (timeMs : Nat) (dx dy dxUnaccel dyUnaccel : Int)
  | warp (timeMs : Nat) (absX absY : Int)
  | button (timeMs : Nat) (button : Nat) (pressed : Bool)
  | axis (timeMs : Nat) (source : AxisSource) (axis : ScrollAxis)
      (delta : Int) (discrete : Int) (inverted : Bool)
  | frame
  | logError (msg : String)
deriving DecidableEq, Repr

/-- The session's wrapper for one libinput device (`CLibinputDevice`),
with its eagerly created capability sub-objects recorded as flags. -/
structure CLibinputDevice where
  device : Nat
  name : String
  hasKeyboard : Bool
  hasMouse : Bool
deriving DecidableEq, Repr

/-- The `uint32_t` timestamp: `(uint32_t)(time_usec / 1000)`. -/
def timeMsOf (timeUsec : Nat) : Nat :=
  (timeUsec / 1000) % 2 ^ 32

/-- The `aqe.source` value after the inner `switch (eventType)` of the scroll
branch.  The `LIBINPUT_EVENT_POINTER_SCROLL_WHEEL` case has no `break`, so
after writing `AQ_POINTER_AXIS_SOURCE_WHEEL` it falls through into the
`SCROLL_FINGER` case, which overwrites the field with
`AQ_POINTER_AXIS_SOURCE_FINGER` and breaks.  The `default:` case leaves the
value-initialized field (`wheel`, enumerator 0) untouched, but is
unreachable: only the three scroll event types enter this branch. -/
def scrollSourceFor : LibinputEventType → AxisSource
  | .pointerScrollWheel => .finger
  | .pointerScrollFinger => .finger
  | .pointerScrollContinuous => .continuous
  | _ => .wheel

/-- One iteration of the `for (auto& axis : LAXES)` body, for an axis the
event has: the axis event payload emitted for `a`.  `discrete` keeps its
value-initialized 0 unless the (already computed) source is `wheel`, in
which case the v120 value is copied in; `direction` is `INVERTED` exactly
when natural scrolling is enabled on the device. -/
def scrollAxisEvent (e : LibinputEventInfo) (src : AxisSource) (a : ScrollAxis) : LiOutput :=
  .axis (timeMsOf e.timeUsec) src a
    (match a with
      | .vertical => e.axisValueVertical
      | .horizontal => e.axisValueHorizontal)
    (if src = .wheel then
      (match a with
        | .vertical => e.v120Vertical
        | .horizontal => e.v120Horizontal)
     else 0)
    e.naturalScrollEnabled

/-- The scroll branch of `handleLibinputEvent`: loop over
`LAXES = {VERTICAL, HORIZONTAL}`, emit one axis event per axis present on
the sample, then emit a single frame event. -/
def scrollOutputs (e : LibinputEventInfo) : List LiOutput :=
  let src := scrollSourceFor e.type
  ((if e.hasAxisVertical then [scrollAxisEvent e src .vertical] else []) ++
   (if e.hasAxisHorizontal then [scrollAxisEvent e src .horizontal] else [])) ++
  [.frame]

/-- Models `CLibinputDevice::init`: record name, attach user data (modelled by the
wrapper entering the device list), create capability objects for the
advertised capabilities and, if the backend is ready, surface each one
immediately (keyboard first, then pointer, matching program order). -/
def libinputDeviceInit (backendReady : Bool) (e : LibinputEventInfo) :
    CLibinputDevice × List LiOutput :=
  ({ device := e.device, name := e.deviceName,
     hasKeyboard := e.capKeyboard, hasMouse := e.capPointer },
   (if e.capKeyboard && backendReady then [.newKeyboard e.device] else []) ++
   (if e.capPointer && backendReady then [.newPointer e.device] else []))

/-- Models `CSession::handleLibinputEvent`.  State is the session's
`libinputDevices` collection; the result is the new collection together with
the outputs in program order.  The user-data lookup
(`libinput_device_get_user_data`) resolves to the wrapper whose `device`
field matches the event's device, since `init` attached it.  Branches that
dereference a capability object (`hlDevice->keyboard`, `hlDevice->mouse`)
assume the code's own precondition that the capability exists for events of
that type. -/
def handleLibinputEvent (backendReady : Bool) (devs : List CLibinputDevice)
    (e : LibinputEventInfo) : List CLibinputDevice × List LiOutput :=
  match devs.find? (fun d => d.device == e.device) with
  | none =>
    if e.type ≠ LibinputEventType.deviceAdded then
      (devs, [.logError "libinput: No aq device in event and not added"])
    else
      let r := libinputDeviceInit backendReady e
      (devs ++ [r.1], r.2)
  | some _ =>
    match e.type with
    | .deviceAdded => (devs, [])
    | .deviceRemoved => (devs.filter (fun d => d.device ≠ e.device), [])
    | .keyboardKey =>
      (devs, [.key (timeMsOf e.timeUsec) e.key e.keyPressed])
    | .pointerMotion =>
      (devs, [.move (timeMsOf e.timeUsec) e.dx e.dy e.dxUnaccel e.dyUnaccel, .frame])
    | .pointerMotionAbsolute =>
      (devs, [.warp (timeMsOf e.timeUsec) e.absX e.absY, .frame])
    | .pointerButton =>
      if (e.buttonPressed && e.seatButtonCount ≠ 1) ||
         (!e.buttonPressed && e.seatButtonCount ≠ 0) then
        (devs, [])
      else
        (devs, [.button (timeMsOf e.timeUsec) e.button e.buttonPressed, .frame])
    | .pointerScrollWheel => (devs, scrollOutputs e)
    | .pointerScrollFinger => (devs, scrollOutputs e)
    | .pointerScrollContinuous => (devs, scrollOutputs e)
    | .other => (devs, [])

/-! ## Libseat handlers and the dispatch cycle -/

/-- The observable steps performed by the libseat enable/disable handlers,
in program order. -/
inductive SeatStep where
  | setActive (b : Bool)
  | libinputResume
  | libinputSuspend
  | emitChangeActive
  | ackDisable
deriving DecidableEq, Repr

/-- Models `libseatEnableSeat`: set `active = true`, resume libinput if a context
exists, emit the active-changed notification. -/
def libseatEnableSeat (hasLibinputHandle : Bool) : List SeatStep :=
  [.setActive true] ++
  (if hasLibinputHandle then [.libinputResume] else []) ++
  [.emitChangeActive]

/-- Models `libseatDisableSeat`: set `active = false`, suspend libinput if a context
exists, emit the active-changed notification, then call
`libseat_disable_seat` (the acknowledgement back to the broker). -/
def libseatDisableSeat (hasLibinputHandle : Bool) : List SeatStep :=
  [.setActive false] ++
  (if hasLibinputHandle then [.libinputSuspend] else []) ++
  [.emitChangeActive, .ackDisable]

/-- The steps of `CSession::dispatchPendingEventsAsync`, in program order. -/
inductive DispatchStep where
  | libseatDrain
  | logLibseatError
  | udevDrain
  | libinputDrain
deriving DecidableEq, Repr

/-- Models `CSession::dispatchPendingEventsAsync`: call `libseat_dispatch(handle, 0)`
(the non-blocking broker drain); if it returned -1, log an error; then
unconditionally drain the udev monitor and then the libinput queue.
`libseatDispatchResult` is the return value of `libseat_dispatch`. -/
def dispatchPendingEventsAsync (libseatDispatchResult : Int) : List DispatchStep :=
  [.libseatDrain] ++
  (if libseatDispatchResult = -1 then [.logLibseatError] else []) ++
  [.udevDrain, .libinputDrain]

/-! ## Session devices and the libinput restricted-open callbacks -/

/-- Models `CSessionDevice`: a broker-opened device node.  `deviceID` is the
libseat device id (negative when the open or the later `fstat` failed),
`fd` the local descriptor, `dev` the `st_rdev` kernel device number
captured by `fstat` (left at its initial 0 when construction failed). -/
structure CSessionDevice where
  deviceID : Int
  fd : Int
  dev : Nat
deriving DecidableEq, Repr

/-- Models `libinputOpen` (the `open_restricted` callback): construct a
`CSessionDevice` for the requested path; `newDev` is the constructed
device.  The code checks `!dev->dev` — i.e. whether the captured kernel
device number is 0, which is what a failed construction leaves — and
returns -1 without tracking the device in that case; otherwise it appends
the device to `sessionDevices` and returns its fd.  No check against
already-tracked devices is performed. -/
def libinputOpen (sessionDevices : List CSessionDevice) (newDev : CSessionDevice) :
    List CSessionDevice × Int :=
  if newDev.dev = 0 then (sessionDevices, -1)
  else (sessionDevices ++ [newDev], newDev.fd)

/-- Models `libinputClose` (the `close_restricted` callback): erase every tracked
device whose fd matches, emitting its removal signal. -/
def libinputClose (sessionDevices : List CSessionDevice) (fd : Int) :
    List CSessionDevice :=
  sessionDevices.filter (fun d => d.fd ≠ fd)

/-- At most one tracked handle per kernel device number. -/
def devnumUnique (sessionDevices : List CSessionDevice) : Prop :=
  sessionDevices.Pairwise (fun a b => a.dev ≠ b.dev)

/-! ## Udev monitor translation -/

/-- What `dispatchUdevEvents` reads from one received `udev_device`.
`sysname` is modelled as a plain string: libudev delivers a sysname for
every monitor-received device, and the code passes it to `isDRMCard`
without a null check. -/
structure UdevMessage where
  sysname : String
  devnode : Option String
  action : Option String
  /-- Models `udev_device_get_devnum`. -/
  devnum : Nat
  /-- property list queried by `udev_device_get_property_value`. -/
  props : List (String × String)
deriving DecidableEq, Repr

/-- Models `udev_device_get_property_value`: first binding of the key, if any. -/
def udevProp (m : UdevMessage) (key : String) : Option String :=
  (m.props.find? (fun p => p.1 == key)).map (fun p => p.2)

/-- Models `isDRMCard`: the sysname must start with `DRM_PRIMARY_MINOR_NAME`
("card") and every character after that prefix must be a decimal digit.
The digit loop runs from the end of the prefix to the terminator, so a
sysname that is exactly "card" passes (the loop body never runs). -/
def isDRMCard (sysname : String) : Bool :=
  "card".data.isPrefixOf sysname.data &&
  (sysname.data.drop "card".data.length).all Char.isDigit

/-- Events emitted while processing one udev message.  Device-scoped events
(`events.change` / `events.remove` on a `CSessionDevice`) carry the fd of
the handle they were emitted on. -/
inductive UdevOutput where
  | addDrmCard (path : String)
  | hotplugChange (onFd : Int) (connectorID : Nat) (propID : Nat)
  | leaseChange (onFd : Int)
  | deviceRemove (onFd : Int)
deriving DecidableEq, Repr

/-- Models `std::stoull` applied to the strings udev delivers for
`CONNECTOR`/`PROPERTY`: the decimal value of the digit string (the kernel
sends decimal ids; on a non-numeric string the C++ call would throw,
which is outside this model). -/
def parseU64 (s : String) : Nat :=
  s.data.foldl (fun n c => n * 10 + (c.toNat - 48)) 0

/-- The body of `dispatchUdevEvents` for one received message: drop it
unless the sysname is a DRM card name and both action and devnode are
present; `add` emits a new-card event; `change`/`remove` look up the first
tracked `CSessionDevice` with the message's device number (the loop breaks
after the first match) and emit on it — a `change` is classified as hotplug
(`HOTPLUG=1`, connector/property ids parsed when present, 0 otherwise —
the `SChangeEvent` fields are value-initialized), else lease (`LEASE=1`),
else dropped; any other action emits nothing. -/
def processUdevMessage (sessionDevices : List CSessionDevice) (m : UdevMessage) :
    List UdevOutput :=
  if ¬ isDRMCard m.sysname ∨ m.action = none ∨ m.devnode = none then []
  else if m.action = some "add" then [.addDrmCard (m.devnode.getD "")]
  else if m.action = some "change" ∨ m.action = some "remove" then
    match sessionDevices.find? (fun d => d.dev == m.devnum) with
    | none => []
    | some d =>
      if m.action = some "change" then
        if udevProp m "HOTPLUG" = some "1" then
          [.hotplugChange d.fd
            (((udevProp m "CONNECTOR").map parseU64).getD 0)
            (((udevProp m "PROPERTY").map parseU64).getD 0)]
        else if udevProp m "LEASE" = some "1" then
          [.leaseChange d.fd]
        else []
      else [.deviceRemove d.fd]
  else []

/-- Models `CSession::dispatchUdevEvents`: return immediately when the udev
context or monitor is absent; otherwise call
`udev_monitor_receive_device` once — it yields the head of the pending
message queue, or nothing when the queue is empty — and process that single
message.  The rest of the queue is left pending. -/
def dispatchUdevEvents (hasUdev : Bool) (sessionDevices : List CSessionDevice)
    (queue : List UdevMessage) : List UdevOutput × List UdevMessage :=
  if ¬ hasUdev then ([], queue)
  else
    match queue with
    | [] => ([], [])
    | m :: rest => (processUdevMessage sessionDevices m, rest)

/-- Runs `n` successive calls of `dispatchUdevEvents` (as successive dispatch
cycles would perform them, the device list unchanged in between):
accumulated outputs and the queue still pending afterwards. -/
def dispatchUdevRepeat (hasUdev : Bool) (sessionDevices : List CSessionDevice) :
    Nat → List UdevMessage → List UdevOutput × List UdevMessage
  | 0, queue => ([], queue)
  | n + 1, queue =>
    let r := dispatchUdevEvents hasUdev sessionDevices queue
    let r2 := dispatchUdevRepeat hasUdev sessionDevices n r.2
    (r.1 ++ r2.1, r2.2)

/-! ## Session establishment (`CSession::attempt`) and teardown -/

/-- The outcome of each acquisition step `CSession::attempt` performs, in
acquisition order. -/
structure EstablishEnv where
  /-- a backend was passed (`backend_` non-null). -/
  backendProvided : Bool
  /-- Whether `libseat_open_seat` returned a handle. -/
  seatOpenOk : Bool
  /-- Whether `libseat_seat_name` returned a name. -/
  seatNameOk : Bool
  /-- Whether `udev_new` succeeded. -/
  udevNewOk : Bool
  /-- Whether `udev_monitor_new_from_netlink` succeeded. -/
  udevMonitorNewOk : Bool
  /-- Whether `libinput_udev_create_context` succeeded. -/
  libinputCreateOk : Bool
  /-- Whether `libinput_udev_assign_seat` returned 0. -/
  assignSeatOk : Bool
deriving DecidableEq, Repr

/-- The externally allocated resources a session can hold. -/
inductive Resource where
  | seat
  | udevContext
  | udevMonitorRes
  | libinputContext
deriving DecidableEq, Repr

/-- Which of the session's handle members are non-null. -/
structure SessionHandles where
  libseatHandle : Bool
  udevHandle : Bool
  udevMonitor : Bool
  libinputHandle : Bool
deriving DecidableEq, Repr

/-- Models `CSession::~CSession`: release the held resources — `libinput_unref`,
`libseat_close_seat`, `udev_monitor_unref`, `udev_unref`, each guarded by
the handle being non-null — returning the released resources in release
order. -/
def cSessionDestructor (h : SessionHandles) : List Resource :=
  (if h.libinputHandle then [.libinputContext] else []) ++
  (if h.libseatHandle then [.seat] else []) ++
  (if h.udevMonitor then [.udevMonitorRes] else []) ++
  (if h.udevHandle then [.udevContext] else [])

/-- Models `CSession::attempt`: perform the acquisition steps in order, returning
`none` at the first failure.  When a step fails, the function returns
before the local shared pointer to the half-built session goes out of
scope, so `CSession::~CSession` runs on the handles acquired so far; the
second component is the list of resources that destructor releases on the
failure path (`[]` on success, where the caller receives the session). -/
def attempt (env : EstablishEnv) : Option SessionHandles × List Resource :=
  if ¬ env.backendProvided then (none, [])
  else if ¬ env.seatOpenOk then
    (none, cSessionDestructor ⟨false, false, false, false⟩)
  else if ¬ env.seatNameOk then
    (none, cSessionDestructor ⟨true, false, false, false⟩)
  else if ¬ env.udevNewOk then
    (none, cSessionDestructor ⟨true, false, false, false⟩)
  else if ¬ env.udevMonitorNewOk then
    (none, cSessionDestructor ⟨true, true, false, false⟩)
  else if ¬ env.libinputCreateOk then
    (none, cSessionDestructor ⟨true, true, true, false⟩)
  else if ¬ env.assignSeatOk then
    (none, cSessionDestructor ⟨true, true, true, true⟩)
  else (some ⟨true, true, true, true⟩, [])

/-- Some establishment step failed. -/
def attemptFails (env : EstablishEnv) : Prop :=
  ¬ env.backendProvided ∨ ¬ env.seatOpenOk ∨ ¬ env.seatNameOk ∨
  ¬ env.udevNewOk ∨ ¬ env.udevMonitorNewOk ∨ ¬ env.libinputCreateOk ∨
  ¬ env.assignSeatOk

instance (env : EstablishEnv) : Decidable (attemptFails env) := by
  unfold attemptFails
  infer_instance

/-- The resources `attempt env` acquires before it returns (all four on
success; on failure, those acquired before the failing step). -/
def acquiredDuringAttempt (env : EstablishEnv) : List Resource :=
  if ¬ env.backendProvided ∨ ¬ env.seatOpenOk then []
  else if ¬ env.seatNameOk ∨ ¬ env.udevNewOk then [.seat]
  else if ¬ env.udevMonitorNewOk then [.seat, .udevContext]
  else if ¬ env.libinputCreateOk then [.seat, .udevContext, .udevMonitorRes]
  else [.seat, .udevContext, .udevMonitorRes, .libinputContext]

/-! ## Concrete samples used by the claim theorems and witnesses -/

/-- A tracked pointer-only libinput device with identity 7. -/
def mouseDevice : CLibinputDevice :=
  { device := 7, name := "mouse0", hasKeyboard := false, hasMouse := true }

/-- A neutral event record; the samples below override the relevant fields. -/
def baseEvent : LibinputEventInfo :=
  { type := .other, device := 7, deviceName := "mouse0",
    capKeyboard := false, capPointer := true, timeUsec := 2000,
    key := 0, keyPressed := false, dx := 0, dy := 0, dxUnaccel := 0, dyUnaccel := 0,
    absX := 0, absY := 0, button := 0, buttonPressed := false, seatButtonCount := 0,
    hasAxisVertical := false, hasAxisHorizontal := false,
    axisValueVertical := 0, axisValueHorizontal := 0,
    v120Vertical := 0, v120Horizontal := 0, naturalScrollEnabled := false }

/-- A wheel scroll sample: vertical axis only, delta 15, v120 discrete value
120 (one detent), natural scrolling disabled. -/
def wheelScrollSample : LibinputEventInfo :=
  { baseEvent with
    type := .pointerScrollWheel, hasAxisVertical := true,
    axisValueVertical := 15, v120Vertical := 120 }

/-! ## Claim theorems -/

/-- C1: the spec claims a wheel scroll sample with vertical delta 15 and
natural-scroll disabled yields one axis event with source Wheel and the
v120 discrete value, followed by one frame event.  Evaluating
`handleLibinputEvent` at exactly that sample shows the code emits the axis
event with source Finger and discrete 0 instead: the scroll-source switch
is missing a `break` after the wheel case (it falls through into the
finger case), which also makes the `source == WHEEL` guard for the
discrete value unreachable.  The event/frame counts and the delta and
inverted fields do match the claim. -/
theorem wheel_scroll_fallthrough_evaluation :
    (handleLibinputEvent true [mouseDevice] wheelScrollSample).2 =
      [.axis 2 .finger .vertical 15 0 false, .frame] ∧
    AxisSource.finger ≠ AxisSource.wheel ∧ (0 : Int) ≠ 120 := by
  decide

/-- C2 counterexample: the claim says the disable handler suspends the
input stack strictly before the active flag becomes false.  In the handler
trace (with a libinput context present), the `active = false` assignment is
step 0 and the suspension is step 1, so the suspension does not precede the
flag flip. -/
theorem disable_seat_flag_flips_before_suspend :
    SeatStep.libinputSuspend ∈ libseatDisableSeat true ∧
    SeatStep.setActive false ∈ libseatDisableSeat true ∧
    ¬ ((libseatDisableSeat true).indexOf SeatStep.libinputSuspend <
       (libseatDisableSeat true).indexOf (SeatStep.setActive false)) := by
  decide

/-- C2 amended: the disable handler flips the active flag to false first,
then (when a libinput context exists) suspends the input stack — before
emitting the active-changed notification, hence before the handler returns
and before any later dispatch step runs — and the acknowledgement to the
broker is the last step of the handler in every case. -/
theorem disable_seat_ordering :
    (∀ b, (libseatDisableSeat b).getLast? = some SeatStep.ackDisable) ∧
    (libseatDisableSeat true).indexOf (SeatStep.setActive false) <
      (libseatDisableSeat true).indexOf SeatStep.libinputSuspend ∧
    (libseatDisableSeat true).indexOf SeatStep.libinputSuspend <
      (libseatDisableSeat true).indexOf SeatStep.emitChangeActive := by
  decide

/-- C10: an input-stack event that is not "device added", coming from a
device with no wrapper attached as user data, changes no session state and
emits no event: the handler only logs an error and returns before touching
any capability object. -/
theorem unassociated_event_only_logs (ready : Bool) (devs : List CLibinputDevice)
    (e : LibinputEventInfo)
    (hnone : devs.find? (fun d => d.device == e.device) = none)
    (hty : e.type ≠ LibinputEventType.deviceAdded) :
    handleLibinputEvent ready devs e =
      (devs, [.logError "libinput: No aq device in event and not added"]) := by
  simp [handleLibinputEvent, hnone, hty]

/-- C10 witness: a keyboard key event from untracked device 9 against an
empty device collection. -/
theorem unassociated_event_only_logs_witness :
    handleLibinputEvent true [] { baseEvent with type := .keyboardKey, device := 9 } =
      ([], [.logError "libinput: No aq device in event and not added"]) := by
  exact unassociated_event_only_logs true []
    { baseEvent with type := .keyboardKey, device := 9 } rfl (by decide)

/-- C3: for a pointer button event from a tracked device, a button event
(followed by exactly one frame event) is emitted iff the seat-wide pressed
count is exactly 1 for a press and exactly 0 for a release; every other
count yields zero outputs for that transition — no button event and no
frame event. -/
theorem pointer_button_seatcount_gating (ready : Bool) (devs : List CLibinputDevice)
    (e : LibinputEventInfo) (hty : e.type = LibinputEventType.pointerButton)
    (hdev : (devs.find? (fun d => d.device == e.device)).isSome) :
    (handleLibinputEvent ready devs e).2 =
      (if (e.buttonPressed = true ∧ e.seatButtonCount = 1) ∨
          (e.buttonPressed = false ∧ e.seatButtonCount = 0) then
        [.button (timeMsOf e.timeUsec) e.button e.buttonPressed, .frame]
       else []) := by
  obtain ⟨d, hd⟩ := Option.isSome_iff_exists.mp hdev
  simp only [handleLibinputEvent, hd, hty]
  rcases hp : e.buttonPressed <;>
    rcases h1 : decide (e.seatButtonCount = 1) <;>
    rcases h0 : decide (e.seatButtonCount = 0) <;>
    simp_all

/-- C3 witness: a press with seat count 1 on tracked device 7 yields the
button event and one frame; the theorem's hypotheses hold at this input. -/
theorem pointer_button_seatcount_gating_witness :
    (handleLibinputEvent true [mouseDevice]
      { baseEvent with
        type := .pointerButton, button := 272, buttonPressed := true,
        seatButtonCount := 1 }).2 = [.button 2 272 true, .frame] := by
  rw [pointer_button_seatcount_gating true [mouseDevice]
    { baseEvent with
      type := .pointerButton, button := 272, buttonPressed := true,
      seatButtonCount := 1 } rfl (by decide)]
  decide

/-- C4: every `dispatchPendingEventsAsync` call starts with the
non-blocking libseat drain and unconditionally ends with the udev drain
followed by the libinput drain, in that order; when the libseat drain
fails (returns -1) the failure is logged and the udev and libinput drains
of the same call still run. -/
theorem dispatch_pending_order (r : Int) :
    List.Sublist [DispatchStep.libseatDrain, DispatchStep.udevDrain,
      DispatchStep.libinputDrain] (dispatchPendingEventsAsync r) ∧
    (dispatchPendingEventsAsync r).head? = some DispatchStep.libseatDrain ∧
    (dispatchPendingEventsAsync r).getLast? = some DispatchStep.libinputDrain ∧
    (r = -1 → dispatchPendingEventsAsync r =
      [DispatchStep.libseatDrain, DispatchStep.logLibseatError,
       DispatchStep.udevDrain, DispatchStep.libinputDrain]) := by
  unfold dispatchPendingEventsAsync
  by_cases h : r = -1 <;> simp [h]

/-- C4 witness: with a failing libseat drain (result -1) the error is
logged and the udev and libinput drains still follow in order. -/
theorem dispatch_pending_order_witness :
    dispatchPendingEventsAsync (-1) =
      [DispatchStep.libseatDrain, DispatchStep.logLibseatError,
       DispatchStep.udevDrain, DispatchStep.libinputDrain] ∧
    List.Sublist [DispatchStep.libseatDrain, DispatchStep.udevDrain,
      DispatchStep.libinputDrain] (dispatchPendingEventsAsync (-1)) :=
  ⟨(dispatch_pending_order (-1)).2.2.2 rfl, (dispatch_pending_order (-1)).1⟩

/-- C5: a udev `change` message with properties HOTPLUG=1, CONNECTOR=12,
PROPERTY=7 whose device number matches a tracked session device yields
exactly one hotplug-change event with connector id 12 and property id 7,
emitted on that handle; and any `change` or `remove` message whose device
number matches no tracked handle yields no event at all. -/
theorem udev_hotplug_change_translation :
    (∀ (devs : List CSessionDevice) (d : CSessionDevice) (path : String) (n : Nat),
      devs.find? (fun x => x.dev == n) = some d →
      processUdevMessage devs
        { sysname := "card0", devnode := some path, action := some "change",
          devnum := n,
          props := [("HOTPLUG", "1"), ("CONNECTOR", "12"), ("PROPERTY", "7")] } =
        [.hotplugChange d.fd 12 7]) ∧
    (∀ (devs : List CSessionDevice) (m : UdevMessage),
      m.action = some "change" ∨ m.action = some "remove" →
      devs.find? (fun x => x.dev == m.devnum) = none →
      processUdevMessage devs m = []) := by
  constructor
  · intro devs d path n hfind
    have hcard : isDRMCard "card0" = true := by decide
    simp only [processUdevMessage, hfind, hcard]
    rfl
  · intro devs m hact hfind
    rcases hact with h | h <;>
      simp only [processUdevMessage, h, hfind] <;>
      split <;> simp_all

/-- C5 witness: session device with fd 10 and kernel number 5 receives the
hotplug event for the concrete message; with no tracked device the same
message is dropped. -/
theorem udev_hotplug_change_translation_witness :
    processUdevMessage [{ deviceID := 1, fd := 10, dev := 5 }]
      { sysname := "card0", devnode := some "/dev/dri/card0",
        action := some "change", devnum := 5,
        props := [("HOTPLUG", "1"), ("CONNECTOR", "12"), ("PROPERTY", "7")] } =
      [.hotplugChange 10 12 7] ∧
    processUdevMessage []
      { sysname := "card0", devnode := some "/dev/dri/card0",
        action := some "change", devnum := 5,
        props := [("HOTPLUG", "1"), ("CONNECTOR", "12"), ("PROPERTY", "7")] } = [] := by
  constructor
  · exact udev_hotplug_change_translation.1
      [{ deviceID := 1, fd := 10, dev := 5 }]
      { deviceID := 1, fd := 10, dev := 5 } "/dev/dri/card0" 5 (by decide)
  · exact udev_hotplug_change_translation.2 []
      { sysname := "card0", devnode := some "/dev/dri/card0",
        action := some "change", devnum := 5,
        props := [("HOTPLUG", "1"), ("CONNECTOR", "12"), ("PROPERTY", "7")] }
      (Or.inl rfl) (by decide)

/-- C6 counterexample: the claim says a message whose sysname is the bare
prefix "card" with zero digits yields no event, but the digit loop of
`isDRMCard` is vacuous for it, so the filter accepts it and an `add`
message with that sysname does emit a new-card event. -/
theorem bare_card_sysname_is_accepted :
    isDRMCard "card" = true ∧
    processUdevMessage []
      { sysname := "card", devnode := some "/dev/dri/card0",
        action := some "add", devnum := 0, props := [] } =
      [.addDrmCard "/dev/dri/card0"] := by
  constructor
  · decide
  · decide

/-- C6 amended: a udev message whose sysname fails the card filter (it
does not start with "card", or some character after that prefix is not a
decimal digit), or that lacks an action or a device node path, yields no
event; the bare sysname "card" (zero digits) however passes the filter. -/
theorem udev_non_card_messages_dropped (devs : List CSessionDevice)
    (m : UdevMessage)
    (h : isDRMCard m.sysname = false ∨ m.action = none ∨ m.devnode = none) :
    processUdevMessage devs m = [] := by
  have : (¬ isDRMCard m.sysname ∨ m.action = none ∨ m.devnode = none) := by
    rcases h with h | h | h
    · exact Or.inl (by simp [h])
    · exact Or.inr (Or.inl h)
    · exact Or.inr (Or.inr h)
  unfold processUdevMessage
  rw [if_pos this]

/-- C6 amended witness: a render-node sysname is rejected and a digitless
suffix character is rejected; a card message without devnode is dropped
even though its sysname matches. -/
theorem udev_non_card_messages_dropped_witness :
    processUdevMessage []
      { sysname := "renderD128", devnode := some "/dev/dri/renderD128",
        action := some "add", devnum := 0, props := [] } = [] ∧
    processUdevMessage []
      { sysname := "card0", devnode := none,
        action := some "add", devnum := 0, props := [] } = [] := by
  constructor
  · exact udev_non_card_messages_dropped []
      { sysname := "renderD128", devnode := some "/dev/dri/renderD128",
        action := some "add", devnum := 0, props := [] } (Or.inl (by decide))
  · exact udev_non_card_messages_dropped []
      { sysname := "card0", devnode := none,
        action := some "add", devnum := 0, props := [] } (Or.inr (Or.inr rfl))

/-- C7: whenever any establishment step fails, `attempt` returns no
session, and the destructor run on the half-built session releases exactly
the resources acquired up to the failing step (so nothing stays
allocated); in particular, when the broker fails to open a seat, nothing
was acquired and nothing is left allocated — no device-bus or input-stack
resource exists. -/
theorem attempt_failure_returns_nothing (env : EstablishEnv)
    (h : attemptFails env) :
    (attempt env).1 = none ∧
    List.Perm (attempt env).2 (acquiredDuringAttempt env) ∧
    (env.seatOpenOk = false →
      (attempt env).2 = [] ∧ acquiredDuringAttempt env = []) := by
  obtain ⟨bp, so, sn, un, um, lc, as⟩ := env
  revert h
  cases bp <;> cases so <;> cases sn <;> cases un <;> cases um <;>
    cases lc <;> cases as <;> decide

/-- C7 witness: a broker that fails to open a seat (every other step would
succeed) yields a null result with no resources left allocated. -/
theorem attempt_failure_returns_nothing_witness :
    (attempt ⟨true, false, true, true, true, true, true⟩).1 = none ∧
    (attempt ⟨true, false, true, true, true, true, true⟩).2 = [] := by
  have h := attempt_failure_returns_nothing
    ⟨true, false, true, true, true, true, true⟩ (by decide)
  exact ⟨h.1, (h.2.2 rfl).1⟩

/-- C8 counterexample: the restricted-open callback performs no check
against already-tracked kernel device numbers, so opening a second handle
for an already-tracked number breaks the uniqueness invariant: from the
unique collection holding a handle with number 5, an open that yields
another device with number 5 produces a collection with two handles for
number 5. -/
theorem libinput_open_can_duplicate_devnum :
    devnumUnique [{ deviceID := 1, fd := 3, dev := 5 }] ∧
    ¬ devnumUnique (libinputOpen [{ deviceID := 1, fd := 3, dev := 5 }]
        { deviceID := 2, fd := 4, dev := 5 }).1 := by
  constructor
  · simp [devnumUnique]
  · simp [devnumUnique, libinputOpen]

/-- C8 amended: the restricted-open callback preserves the at-most-one-
handle-per-kernel-device-number invariant provided the newly opened
device's number is not already tracked (the code itself performs no
duplicate check and relies on the input stack opening each node once);
the restricted-close callback preserves the invariant unconditionally. -/
theorem libinput_open_preserves_uniqueness (devs : List CSessionDevice)
    (newDev : CSessionDevice) (fd : Int) (hu : devnumUnique devs)
    (hfresh : ∀ d ∈ devs, d.dev ≠ newDev.dev) :
    devnumUnique (libinputOpen devs newDev).1 ∧
    devnumUnique (libinputClose devs fd) := by
  constructor
  · unfold libinputOpen
    by_cases h : newDev.dev = 0
    · simpa [h] using hu
    · simp only [h, if_neg, ite_false]
      unfold devnumUnique
      rw [List.pairwise_append]
      refine ⟨hu, by simp, ?_⟩
      intro a ha b hb
      simp only [List.mem_singleton] at hb
      subst hb
      exact hfresh a ha
  · exact List.Pairwise.sublist (List.filter_sublist devs) hu

/-- C8 witness: opening a device with fresh kernel number 6 over a
collection tracking number 5 keeps the collection duplicate-free, as does
closing fd 3 on it. -/
theorem libinput_open_preserves_uniqueness_witness :
    devnumUnique (libinputOpen [{ deviceID := 1, fd := 3, dev := 5 }]
      { deviceID := 2, fd := 4, dev := 6 }).1 ∧
    devnumUnique (libinputClose [{ deviceID := 1, fd := 3, dev := 5 }] 3) := by
  exact libinput_open_preserves_uniqueness
    [{ deviceID := 1, fd := 3, dev := 5 }] { deviceID := 2, fd := 4, dev := 6 } 3
    (by simp [devnumUnique]) (by decide)

/-- Two pending udev messages used to exhibit the single-receive behavior
of `dispatchUdevEvents`. -/
def udevAddCard0 : UdevMessage :=
  { sysname := "card0", devnode := some "/dev/dri/card0",
    action := some "add", devnum := 0, props := [] }

/-- A second pending message, for a different card. -/
def udevAddCard1 : UdevMessage :=
  { sysname := "card1", devnode := some "/dev/dri/card1",
    action := some "add", devnum := 1, props := [] }

/-- C9 counterexample: the claim says one `dispatchPending()` call drains
every pending device-bus message.  `dispatchUdevEvents` calls
`udev_monitor_receive_device` exactly once, so with two messages pending a
single call applies only the first: the second is still pending when the
call (and with it the whole dispatch cycle, including the input-stack
drain) completes. -/
theorem udev_dispatch_receives_single_message :
    (dispatchUdevEvents true [] [udevAddCard0, udevAddCard1]).2 =
      [udevAddCard1] ∧
    (dispatchUdevEvents true [] [udevAddCard0, udevAddCard1]).1 =
      [.addDrmCard "/dev/dri/card0"] ∧
    [udevAddCard1] ≠ ([] : List UdevMessage) := by
  refine ⟨rfl, by decide, by decide⟩

/-- C9 amended: each `dispatchPending()` call receives at most one pending
device-bus message (the head of the queue), applied before that call's
input-stack drain; the rest stay queued, and as many successive dispatch
cycles as there are pending messages drain them all, applying them in
arrival order with no reordering. -/
theorem udev_dispatch_drains_across_calls (devs : List CSessionDevice)
    (queue : List UdevMessage) :
    dispatchUdevRepeat true devs queue.length queue =
      ((queue.map (processUdevMessage devs)).flatten, []) := by
  induction queue with
  | nil => rfl
  | cons m rest ih =>
    simp [dispatchUdevRepeat, dispatchUdevEvents, ih]

end Aquamarine
